import Mathlib

/-!
Shallow embedding of the edit-history and canvas-coordinate core of the
infinite-canvas image editor (App component, `src/unnamed/part_000`).

JavaScript numbers are modelled as exact rationals (ℚ); `Math.round` is
modelled as `jsRound` (floor of x + 1/2, JavaScript's round-half-toward
positive-infinity); `Array.prototype.slice(0, e)` is modelled as `jsSlice0`
including its negative-end convention.  React `useState` cells become fields
of an explicit `AppState` record, and each event handler becomes a function
`AppState → ... → AppState`; the asynchronous collaborator calls
(`generateEditedImage`, `getDrawingAnalysis`, ...) are passed in as
`Except String _` arguments so that both the success and the failure
continuation of each handler can be analysed.
-/

namespace InfiniteCanvas

/-- JavaScript `Math.round`: floor of `q + 1/2` (half rounds toward +∞). -/
def jsRound (q : ℚ) : Int := (q + 1/2).floor

theorem jsRound_eq_floor (q : ℚ) : jsRound q = ⌊q + 1/2⌋ := by
  rw [jsRound, Rat.floor_def', ← Rat.floor_def]

/-- The test `!prompt.trim()` of the source: the trimmed prompt is the empty
string exactly when every character of the prompt is whitespace (trimming
strips whitespace from both ends, so only an all-whitespace string trims to
empty). -/
def jsIsBlank (s : String) : Bool :=
  s.data.all Char.isWhitespace

/-- JavaScript `xs.slice(0, e)`: for `e ≥ 0` the first `e` elements, for
`e < 0` all but the last `-e` elements (clamped at 0). -/
def jsSlice0 {α : Type} (l : List α) (e : Int) : List α :=
  if e < 0 then l.take ((l.length : Int) + e).toNat else l.take e.toNat

/-- Rectangle in rendered coordinates (react-image-crop `Crop`/`PixelCrop`). -/
structure Rect where
  x : ℚ
  y : ℚ
  width : ℚ
  height : ℚ
deriving DecidableEq, Repr

/-- One content segment of a conversation turn (`Content.parts` element). -/
inductive Part where
  | image (data : String)
  | text (s : String)
deriving DecidableEq, Repr

/-- One conversation turn (`Content` of the gemini service). -/
structure Content where
  role : String
  parts : List Part
deriving DecidableEq, Repr

/-- Response of `getDrawingAnalysis`: optional block reason
(`response.promptFeedback?.blockReason`) and optional text (`response.text`). -/
structure AnalysisResponse where
  blockReason : Option String
  text : Option String
deriving DecidableEq, Repr

/-- The raster produced by `handleApplyCrop`: final canvas size and the
arguments of the single `ctx.drawImage` blit (source rectangle in natural
space, destination size in pre-density units). -/
structure RasterOut where
  canvasW : ℚ
  canvasH : ℚ
  srcX : ℚ
  srcY : ℚ
  srcW : ℚ
  srcH : ℚ
  dstW : ℚ
  dstH : ℚ
deriving DecidableEq, Repr

/-- An image buffer (a `File` in the source): either an uploaded/generated
buffer identified by name, or the output of the crop rasterizer. -/
inductive FileB where
  | named (name : String)
  | cropped (raster : RasterOut)
deriving DecidableEq, Repr

/-- The `Tab` union type of the source. -/
inductive Tab where
  | retouch
  | magicFill
  | adjust
  | styles
  | crop
  | analyze
deriving DecidableEq, Repr

/-- The App component's state cells (`useState` hooks of `part_000`). -/
structure AppState where
  history : List FileB
  historyIndex : Int
  prompt : String
  isLoading : Bool
  error : Option String
  editHotspot : Option (Int × Int)
  displayHotspot : Option (ℚ × ℚ)
  activeTab : Tab
  chatHistory : List Content
  hasInitialAnalysisRun : Bool
  crop : Option Rect
  completedCrop : Option Rect
  maskDataUrl : Option String
deriving DecidableEq, Repr

/-- `const currentImage = history[historyIndex] ?? null` (line 65). -/
def currentImage (s : AppState) : Option FileB :=
  if s.historyIndex < 0 then none else s.history[s.historyIndex.toNat]?

/-- `const canUndo = historyIndex > 0` (line 116). -/
def canUndo (s : AppState) : Bool :=
  decide (0 < s.historyIndex)

/-- `const canRedo = historyIndex < history.length - 1` (line 117). -/
def canRedo (s : AppState) : Bool :=
  decide (s.historyIndex < (s.history.length : Int) - 1)

/-- `addImageToHistory` (lines 119-129): truncate the history to
`slice(0, historyIndex + 1)`, push the new file, set the index to the new
last position, and clear crop, completed crop and mask. -/
def addImageToHistory (s : AppState) (newImageFile : FileB) : AppState :=
  let newHistory := jsSlice0 s.history (s.historyIndex + 1) ++ [newImageFile]
  { s with
    history := newHistory
    historyIndex := (newHistory.length : Int) - 1
    crop := none
    completedCrop := none
    maskDataUrl := none }

/-- `handleImageUpload` (lines 131-143). -/
def handleImageUpload (s : AppState) (file : FileB) : AppState :=
  { s with
    error := none
    history := [file]
    historyIndex := 0
    editHotspot := none
    displayHotspot := none
    activeTab := Tab.retouch
    crop := none
    completedCrop := none
    chatHistory := []
    hasInitialAnalysisRun := false
    maskDataUrl := none }

/-- `handleUndo` (lines 357-364). -/
def handleUndo (s : AppState) : AppState :=
  if canUndo s then
    { s with
      historyIndex := s.historyIndex - 1
      editHotspot := none
      displayHotspot := none
      maskDataUrl := none }
  else s

/-- `handleRedo` (lines 366-373). -/
def handleRedo (s : AppState) : AppState :=
  if canRedo s then
    { s with
      historyIndex := s.historyIndex + 1
      editHotspot := none
      displayHotspot := none
      maskDataUrl := none }
  else s

/-- `handleReset` (lines 375-386). -/
def handleReset (s : AppState) : AppState :=
  if 0 < s.history.length then
    { s with
      historyIndex := 0
      error := none
      editHotspot := none
      displayHotspot := none
      chatHistory := []
      hasInitialAnalysisRun := false
      maskDataUrl := none }
  else s

/-- `handleUploadNew` (lines 388-397). -/
def handleUploadNew (s : AppState) : AppState :=
  { s with
    history := []
    historyIndex := -1
    error := none
    prompt := ""
    editHotspot := none
    displayHotspot := none
    chatHistory := []
    maskDataUrl := none }

/-- `handleGenerate` (lines 145-177).  The asynchronous
`generateEditedImage` call is passed in as `result`: `.ok f` models the
collaborator succeeding with a buffer already decoded by `dataURLtoFile`,
`.error m` models the thrown error's message.  The transient
`isLoading := true` phase is not observable in this atomic model; the final
state has `isLoading = false` on every path that entered it. -/
def handleGenerate (s : AppState) (result : Except String FileB) : AppState :=
  if (currentImage s).isNone then
    { s with error := some "No image loaded to edit." }
  else if jsIsBlank s.prompt then
    { s with error := some "Please enter a description for your edit." }
  else if s.editHotspot.isNone then
    { s with error := some "Please click on the image to select an area to edit." }
  else
    match result with
    | Except.ok newImageFile =>
        let s1 := addImageToHistory { s with isLoading := false, error := none } newImageFile
        { s1 with editHotspot := none, displayHotspot := none }
    | Except.error msg =>
        { s with isLoading := false
                 error := some ("Failed to generate the image. " ++ msg) }

/-- `handleGenerateFill` (lines 179-200). -/
def handleGenerateFill (s : AppState) (result : Except String FileB) : AppState :=
  if (currentImage s).isNone ∨ s.maskDataUrl.isNone then
    { s with error := some "Please load an image and mask an area to fill." }
  else
    match result with
    | Except.ok newImageFile =>
        addImageToHistory { s with isLoading := false, error := none } newImageFile
    | Except.error msg =>
        { s with isLoading := false
                 error := some ("Failed to generate the filled image. " ++ msg) }

/-- `handleApplyStyle` (lines 202-222). -/
def handleApplyStyle (s : AppState) (result : Except String FileB) : AppState :=
  if (currentImage s).isNone then
    { s with error := some "No image loaded to apply a style to." }
  else
    match result with
    | Except.ok newImageFile =>
        addImageToHistory { s with isLoading := false, error := none } newImageFile
    | Except.error msg =>
        { s with isLoading := false
                 error := some ("Failed to apply the style. " ++ msg) }

/-- `handleApplyAdjustment` (lines 224-244). -/
def handleApplyAdjustment (s : AppState) (result : Except String FileB) : AppState :=
  if (currentImage s).isNone then
    { s with error := some "No image loaded to apply an adjustment to." }
  else
    match result with
    | Except.ok newImageFile =>
        addImageToHistory { s with isLoading := false, error := none } newImageFile
    | Except.error msg =>
        { s with isLoading := false
                 error := some ("Failed to apply the adjustment. " ++ msg) }

/-- The raster computation inside `handleApplyCrop` (lines 252-282):
`scaleX = naturalWidth / image.width`, `scaleY = naturalHeight / image.height`,
final canvas size `completedCrop.width * pixelRatio` by
`completedCrop.height * pixelRatio` (lines 266-268), and the `drawImage`
source rectangle scaled into natural space (lines 272-282). -/
def rasterizeCrop (completedCrop : Rect)
    (naturalWidth naturalHeight width height pixelRatio : ℚ) : RasterOut :=
  let scaleX := naturalWidth / width
  let scaleY := naturalHeight / height
  { canvasW := completedCrop.width * pixelRatio
    canvasH := completedCrop.height * pixelRatio
    srcX := completedCrop.x * scaleX
    srcY := completedCrop.y * scaleY
    srcW := completedCrop.width * scaleX
    srcH := completedCrop.height * scaleY
    dstW := completedCrop.width
    dstH := completedCrop.height }

/-- `handleApplyCrop` (lines 246-288).  `imgPresent` models
`imgRef.current` being non-null, the dimension arguments model the element's
`naturalWidth/naturalHeight/width/height`, `pixelRatio` models
`window.devicePixelRatio || 1`, and `ctxOk` models
`canvas.getContext('2d')` succeeding. -/
def handleApplyCrop (s : AppState) (imgPresent : Bool)
    (naturalWidth naturalHeight width height pixelRatio : ℚ)
    (ctxOk : Bool) : AppState :=
  match s.completedCrop, imgPresent with
  | some c, true =>
      if ctxOk then
        addImageToHistory s
          (FileB.cropped (rasterizeCrop c naturalWidth naturalHeight width height pixelRatio))
      else { s with error := some "Could not process the crop." }
  | _, _ => { s with error := some "Please select an area to crop." }

/-- The display-to-natural mapping applied by `handleImageClick`
(lines 428-433): `Math.round(offset * (natural / client))`. -/
def scaleMap (naturalDim clientDim offset : ℚ) : Int :=
  jsRound (offset * (naturalDim / clientDim))

/-- `handleImageClick` (lines 417-436).  `offsetX/offsetY` are
`clientX - rect.left` and `clientY - rect.top`. -/
def handleImageClick (s : AppState)
    (naturalWidth naturalHeight clientWidth clientHeight offsetX offsetY : ℚ) : AppState :=
  if s.activeTab ≠ Tab.retouch then s
  else
    { s with
      displayHotspot := some (offsetX, offsetY)
      editHotspot := some (scaleMap naturalWidth clientWidth offsetX,
                           scaleMap naturalHeight clientHeight offsetY) }

/-- The outcome analysis of the `try` block of `handleSendMessage`
(lines 318-333): a thrown collaborator error, a block reason
(line 321-323), or a falsy `response.text` (lines 325-328) all produce an
error message; otherwise the model's text is returned. -/
def analysisOutcome (result : Except String AnalysisResponse) : Except String String :=
  match result with
  | Except.error msg => Except.error msg
  | Except.ok resp =>
      match resp.blockReason with
      | some br => Except.error ("Request was blocked. Reason: " ++ br ++ ".")
      | none =>
          match resp.text with
          | none =>
              Except.error "The AI model did not return a text response. This might be due to safety filters."
          | some t =>
              if t = "" then
                Except.error "The AI model did not return a text response. This might be due to safety filters."
              else Except.ok t

/-- `handleSendMessage` (lines 290-343).  `imagePart` models the fallible
`fileToPart(currentImage)` call performed only when the chat log is empty;
`result` models the `getDrawingAnalysis` call.  On failure the just-pushed
user turn is removed again by `prev.slice(0, -1)` (line 339). -/
def handleSendMessage (s : AppState) (message : String)
    (imagePart : Except String Part)
    (result : Except String AnalysisResponse) : AppState :=
  if (currentImage s).isNone then
    { s with error := some "Please upload an image to analyze." }
  else
    let firstParts : Except String (List Part) :=
      if s.chatHistory.isEmpty then imagePart.map (fun p => [p]) else Except.ok []
    match firstParts with
    | Except.error msg =>
        { s with isLoading := false
                 error := some ("Could not process image for analysis. " ++ msg) }
    | Except.ok ps =>
        let userParts := ps ++ [Part.text message]
        let userContent : Content := { role := "user", parts := userParts }
        let newHistory := s.chatHistory ++ [userContent]
        match analysisOutcome result with
        | Except.ok modelResponseText =>
            { s with
              chatHistory := newHistory ++ [{ role := "model", parts := [Part.text modelResponseText] }]
              isLoading := false
              error := none }
        | Except.error msg =>
            { s with
              chatHistory := jsSlice0 newHistory (-1)
              isLoading := false
              error := some ("Failed to get analysis. " ++ msg) }

/-- The History Stack invariant of the spec: `-1 ≤ cursor < length`, with
`cursor = -1` exactly when the sequence is empty. -/
def HistoryInv (s : AppState) : Prop :=
  -1 ≤ s.historyIndex ∧ s.historyIndex < (s.history.length : Int) ∧
    (s.historyIndex = -1 ↔ s.history = [])

instance (s : AppState) : Decidable (HistoryInv s) := by
  unfold HistoryInv; infer_instance

/-- A base state with nothing loaded, used to build concrete witnesses. -/
def st0 : AppState :=
  { history := []
    historyIndex := -1
    prompt := ""
    isLoading := false
    error := none
    editHotspot := none
    displayHotspot := none
    activeTab := Tab.retouch
    chatHistory := []
    hasInitialAnalysisRun := false
    crop := none
    completedCrop := none
    maskDataUrl := none }

theorem jsSlice0_of_nonneg {α : Type} (l : List α) (e : Int) (h : 0 ≤ e) :
    jsSlice0 l e = l.take e.toNat := by
  rw [jsSlice0, if_neg (by omega)]

theorem jsSlice0_length_self {α : Type} (l : List α) :
    jsSlice0 l (l.length : Int) = l := by
  rw [jsSlice0_of_nonneg _ _ (by omega)]
  simp

theorem jsSlice0_append_neg_one {α : Type} (l : List α) (a : α) :
    jsSlice0 (l ++ [a]) (-1) = l := by
  rw [jsSlice0, if_pos (by omega)]
  simp

/-- A single loaded image named `A`, cursor at 0: the smallest state with an
active editing session. -/
def stA : AppState :=
  { st0 with history := [FileB.named "A"], historyIndex := 0 }

/-- Claim C1: for every non-empty history with cursor `i` and every buffer
`b`, `addImageToHistory b` replaces the sequence by its prefix `[0..i]`
followed by `b` and sets the cursor to the new last index; for the stack
`[A,B,C]` with cursor 2, `undo(); undo(); append(D)` yields `[A,D]` with
cursor 1 and `canRedo` false. -/
theorem claim_C1 (s : AppState) (b : FileB)
    (_hne : s.history ≠ []) (hi : 0 ≤ s.historyIndex) :
    (addImageToHistory s b).history
        = s.history.take (s.historyIndex + 1).toNat ++ [b]
    ∧ (addImageToHistory s b).historyIndex
        = ((addImageToHistory s b).history.length : Int) - 1
    ∧ ((addImageToHistory (handleUndo (handleUndo
          { st0 with history := [FileB.named "A", FileB.named "B", FileB.named "C"],
                     historyIndex := 2 }))
          (FileB.named "D")).history
        = [FileB.named "A", FileB.named "D"]
      ∧ (addImageToHistory (handleUndo (handleUndo
          { st0 with history := [FileB.named "A", FileB.named "B", FileB.named "C"],
                     historyIndex := 2 }))
          (FileB.named "D")).historyIndex = 1
      ∧ canRedo (addImageToHistory (handleUndo (handleUndo
          { st0 with history := [FileB.named "A", FileB.named "B", FileB.named "C"],
                     historyIndex := 2 }))
          (FileB.named "D")) = false) := by
  refine ⟨?_, ?_, by decide⟩
  · rw [addImageToHistory]
    rw [jsSlice0_of_nonneg _ _ (by omega)]
  · rfl

/-- Witness for C1 at the concrete state `stA` and buffer `B`. -/
theorem claim_C1_witness :
    stA.history ≠ [] ∧ 0 ≤ stA.historyIndex ∧
    (addImageToHistory stA (FileB.named "B")).history
        = stA.history.take (stA.historyIndex + 1).toNat ++ [FileB.named "B"] :=
  ⟨by decide, by decide, (claim_C1 stA (FileB.named "B") (by decide) (by decide)).1⟩

/-- Claim C2: every history operation (upload, append, undo, redo, reset,
upload-new teardown) preserves the invariant `-1 ≤ cursor < length` with
`cursor = -1` exactly when the sequence is empty. -/
theorem claim_C2 (s : AppState) (f : FileB) (h : HistoryInv s) :
    HistoryInv (handleImageUpload s f)
    ∧ HistoryInv (addImageToHistory s f)
    ∧ HistoryInv (handleUndo s)
    ∧ HistoryInv (handleRedo s)
    ∧ HistoryInv (handleReset s)
    ∧ HistoryInv (handleUploadNew s) := by
  obtain ⟨h1, h2, h3⟩ := h
  rw [← List.length_eq_zero] at h3
  refine ⟨?_, ?_, ?_, ?_, ?_, ?_⟩
  · simp [handleImageUpload, HistoryInv]
  · simp only [addImageToHistory, HistoryInv, List.length_append,
      List.length_cons, List.length_nil, ← List.length_eq_zero]
    omega
  · rw [handleUndo]
    split_ifs with hc
    · rw [canUndo, decide_eq_true_iff] at hc
      simp only [HistoryInv, ← List.length_eq_zero]
      omega
    · exact ⟨h1, h2, by rw [← List.length_eq_zero]; exact h3⟩
  · rw [handleRedo]
    split_ifs with hc
    · rw [canRedo, decide_eq_true_iff] at hc
      simp only [HistoryInv, ← List.length_eq_zero]
      omega
    · exact ⟨h1, h2, by rw [← List.length_eq_zero]; exact h3⟩
  · rw [handleReset]
    split_ifs with hc
    · simp only [HistoryInv, ← List.length_eq_zero]
      omega
    · exact ⟨h1, h2, by rw [← List.length_eq_zero]; exact h3⟩
  · simp [handleUploadNew, HistoryInv]

/-- Witness for C2 at the concrete state `stA`. -/
theorem claim_C2_witness :
    HistoryInv stA ∧ HistoryInv (addImageToHistory stA (FileB.named "B")) :=
  ⟨by decide, (claim_C2 stA (FileB.named "B") (by decide)).2.1⟩

/-- Claim C3 counterexample: `addImageToHistory` on the empty history is not
a no-op — it pushes the buffer, so the sequence is no longer empty and the
cursor is 0 rather than -1. -/
theorem claim_C3_counterexample :
    (addImageToHistory st0 (FileB.named "D")).history = [FileB.named "D"]
    ∧ (addImageToHistory st0 (FileB.named "D")).historyIndex = 0
    ∧ ¬ ((addImageToHistory st0 (FileB.named "D")).history = []
          ∧ (addImageToHistory st0 (FileB.named "D")).historyIndex = -1) := by
  decide

/-- Claim C3 (amended): on an empty history (cursor -1), `undo`, `redo` and
`reset` are exact no-ops, but `addImageToHistory` pushes the buffer, yielding
a one-element sequence with cursor 0; the orchestrator callers guard this
case by checking for a loaded image, leave the history empty, and record an
error message instead. -/
theorem claim_C3 (s : AppState) (b : FileB) (r : Except String FileB)
    (h1 : s.history = []) (h2 : s.historyIndex = -1) :
    handleUndo s = s
    ∧ handleRedo s = s
    ∧ handleReset s = s
    ∧ (addImageToHistory s b).history = [b]
    ∧ (addImageToHistory s b).historyIndex = 0
    ∧ (handleGenerate s r).history = s.history
    ∧ (handleGenerate s r).error = some "No image loaded to edit." := by
  have hcur : currentImage s = none := by rw [currentImage, if_pos (by omega)]
  refine ⟨?_, ?_, ?_, ?_, ?_, ?_, ?_⟩
  · rw [handleUndo, if_neg]
    simp [canUndo, h2]
  · rw [handleRedo, if_neg]
    simp [canRedo, h1, h2]
  · rw [handleReset, if_neg]
    simp [h1]
  · simp [addImageToHistory, jsSlice0, h1, h2]
  · simp [addImageToHistory, jsSlice0, h1, h2]
  · unfold handleGenerate
    rw [if_pos (by simp [hcur])]
  · unfold handleGenerate
    rw [if_pos (by simp [hcur])]

/-- Witness for C3 at the empty state `st0`. -/
theorem claim_C3_witness :
    st0.history = [] ∧ st0.historyIndex = -1 ∧
    handleUndo st0 = st0 ∧
    (addImageToHistory st0 (FileB.named "D")).historyIndex = 0 :=
  ⟨rfl, rfl,
    (claim_C3 st0 (FileB.named "D") (Except.error "e") rfl rfl).1,
    (claim_C3 st0 (FileB.named "D") (Except.error "e") rfl rfl).2.2.2.2.1⟩

/-- A fixed selection rectangle used in concrete states. -/
def rect1 : Rect := { x := 1, y := 2, width := 3, height := 4 }

/-- A loaded session with a committed hotspot, a finalized crop and a mask:
all transient selection state populated at once. -/
def stSel : AppState :=
  { st0 with
    history := [FileB.named "A", FileB.named "B"]
    historyIndex := 1
    prompt := "make it blue"
    editHotspot := some (1, 2)
    displayHotspot := some (3, 4)
    crop := some rect1
    completedCrop := some rect1
    maskDataUrl := some "mask" }

/-- Claim C4 counterexample: a successful style append leaves both hotspots
untouched, and an undo leaves the crop rectangle and the completed crop
untouched — so not every append and not every undo clears all transient
selection state. -/
theorem claim_C4_counterexample :
    (handleApplyStyle stSel (Except.ok (FileB.named "C"))).editHotspot = some (1, 2)
    ∧ (handleApplyStyle stSel (Except.ok (FileB.named "C"))).displayHotspot = some (3, 4)
    ∧ (handleUndo stSel).crop = some rect1
    ∧ (handleUndo stSel).completedCrop = some rect1
    ∧ (handleReset stSel).completedCrop = some rect1 := by
  decide

/-- Claim C4 (amended): `addImageToHistory` clears the crop rectangle, the
completed crop and the paint mask but leaves both hotspots unchanged; only
the retouch path (`handleGenerate`) additionally clears the hotspots after a
successful append, while the style path keeps them; `undo`, `redo` and
`reset` clear the hotspots and the mask but leave the crop rectangle and the
completed crop unchanged. -/
theorem claim_C4 (s : AppState) (f : FileB) :
    (addImageToHistory s f).crop = none
    ∧ (addImageToHistory s f).completedCrop = none
    ∧ (addImageToHistory s f).maskDataUrl = none
    ∧ (addImageToHistory s f).editHotspot = s.editHotspot
    ∧ (addImageToHistory s f).displayHotspot = s.displayHotspot
    ∧ ((currentImage s).isNone = false → jsIsBlank s.prompt = false →
        s.editHotspot.isNone = false →
        (handleGenerate s (Except.ok f)).editHotspot = none
        ∧ (handleGenerate s (Except.ok f)).displayHotspot = none
        ∧ (handleGenerate s (Except.ok f)).crop = none
        ∧ (handleGenerate s (Except.ok f)).completedCrop = none
        ∧ (handleGenerate s (Except.ok f)).maskDataUrl = none)
    ∧ ((currentImage s).isNone = false →
        (handleApplyStyle s (Except.ok f)).editHotspot = s.editHotspot
        ∧ (handleApplyStyle s (Except.ok f)).displayHotspot = s.displayHotspot)
    ∧ (handleUndo s).crop = s.crop
    ∧ (handleUndo s).completedCrop = s.completedCrop
    ∧ (canUndo s = true →
        (handleUndo s).editHotspot = none
        ∧ (handleUndo s).displayHotspot = none
        ∧ (handleUndo s).maskDataUrl = none)
    ∧ (handleRedo s).crop = s.crop
    ∧ (handleRedo s).completedCrop = s.completedCrop
    ∧ (canRedo s = true →
        (handleRedo s).editHotspot = none
        ∧ (handleRedo s).displayHotspot = none
        ∧ (handleRedo s).maskDataUrl = none)
    ∧ (handleReset s).crop = s.crop
    ∧ (handleReset s).completedCrop = s.completedCrop
    ∧ (0 < s.history.length →
        (handleReset s).editHotspot = none
        ∧ (handleReset s).displayHotspot = none
        ∧ (handleReset s).maskDataUrl = none) := by
  refine ⟨rfl, rfl, rfl, rfl, rfl, ?_, ?_, ?_, ?_, ?_, ?_, ?_, ?_, ?_, ?_, ?_⟩
  · intro hc hp hh
    unfold handleGenerate
    rw [if_neg (by simp [hc]), if_neg (by simp [hp]), if_neg (by simp [hh])]
    exact ⟨rfl, rfl, rfl, rfl, rfl⟩
  · intro hc
    unfold handleApplyStyle
    rw [if_neg (by simp [hc])]
    exact ⟨rfl, rfl⟩
  · rw [handleUndo]; split_ifs <;> rfl
  · rw [handleUndo]; split_ifs <;> rfl
  · intro hc
    rw [handleUndo, if_pos hc]
    exact ⟨rfl, rfl, rfl⟩
  · rw [handleRedo]; split_ifs <;> rfl
  · rw [handleRedo]; split_ifs <;> rfl
  · intro hc
    rw [handleRedo, if_pos hc]
    exact ⟨rfl, rfl, rfl⟩
  · rw [handleReset]; split_ifs <;> rfl
  · rw [handleReset]; split_ifs <;> rfl
  · intro hc
    rw [handleReset, if_pos hc]
    exact ⟨rfl, rfl, rfl⟩

/-- Witness for C4 at the fully populated session `stSel`. -/
theorem claim_C4_witness :
    (currentImage stSel).isNone = false ∧ canUndo stSel = true ∧
    ((handleApplyStyle stSel (Except.ok (FileB.named "C"))).editHotspot
        = stSel.editHotspot
      ∧ (handleApplyStyle stSel (Except.ok (FileB.named "C"))).displayHotspot
        = stSel.displayHotspot) ∧
    (handleUndo stSel).completedCrop = stSel.completedCrop :=
  ⟨by decide, by decide,
    (claim_C4 stSel (FileB.named "C")).2.2.2.2.2.2.1 (by decide),
    (claim_C4 stSel (FileB.named "C")).2.2.2.2.2.2.2.2.1⟩

/-- Claim C5: in retouch mode, a click at rendered-local `(x, y)` on an
element with positive rendered dimensions records the natural-space hotspot
`(round(x * naturalWidth / renderedWidth), round(y * naturalHeight /
renderedHeight))` and the display hotspot `(x, y)`; with natural size
800x600 displayed at 400x300, a click at `(100, 150)` yields `(200, 300)`. -/
theorem claim_C5 (s : AppState) (nw nh cw ch x y : ℚ)
    (ht : s.activeTab = Tab.retouch) (_hcw : 0 < cw) (_hch : 0 < ch) :
    (handleImageClick s nw nh cw ch x y).editHotspot
        = some (jsRound (x * nw / cw), jsRound (y * nh / ch))
    ∧ (handleImageClick s nw nh cw ch x y).displayHotspot = some (x, y)
    ∧ (handleImageClick st0 800 600 400 300 100 150).editHotspot
        = some (200, 300) := by
  refine ⟨?_, ?_, ?_⟩
  · unfold handleImageClick
    rw [if_neg (by simp [ht])]
    rw [scaleMap, scaleMap, mul_div_assoc, mul_div_assoc]
  · unfold handleImageClick
    rw [if_neg (by simp [ht])]
  · unfold handleImageClick
    rw [if_neg (by decide)]
    norm_num [scaleMap, jsRound_eq_floor]

/-- Witness for C5 at the scenario input: 800x600 natural, 400x300
rendered, click at (100, 150). -/
theorem claim_C5_witness :
    st0.activeTab = Tab.retouch ∧ (0 : ℚ) < 400 ∧ (0 : ℚ) < 300 ∧
    (handleImageClick st0 800 600 400 300 100 150).editHotspot
        = some (jsRound (100 * 800 / 400), jsRound (150 * 600 / 300)) :=
  ⟨rfl, by norm_num, by norm_num,
    (claim_C5 st0 800 600 400 300 100 150 rfl (by norm_num) (by norm_num)).1⟩

/-- Claim C6 as found in the code: `handleImageClick` performs no guard on
the rendered dimensions — at rendered width 0 it still divides (by the
rational convention `a / 0 = 0`; in JavaScript the quotient is `Infinity`)
and records a hotspot, and nothing signals "unavailable" (the error slot is
untouched). -/
theorem claim_C6_bug :
    (handleImageClick st0 800 600 0 300 10 10).editHotspot = some (0, 20)
    ∧ (handleImageClick st0 800 600 0 300 10 10).displayHotspot = some (10, 10)
    ∧ (handleImageClick st0 800 600 0 300 10 10).error = none := by
  unfold handleImageClick
  rw [if_neg (by decide)]
  refine ⟨?_, rfl, rfl⟩
  norm_num [scaleMap, jsRound_eq_floor]

/-- Modelled from the spec: mapping a natural-space coordinate back through
the inverse scale (`renderedDim / naturalDim`), used to state the round-trip
property; the source has no inverse mapping of its own. -/
def specInverseScale (naturalDim clientDim : ℚ) (n : Int) : ℚ :=
  (n : ℚ) * (clientDim / naturalDim)

/-- Claim C7 counterexample: with natural width 1 and rendered width 10
(both positive) the rendered point 5 maps to natural 1 and back to 10, an
error of 5 rendered units — far outside the claimed ±1 bound. -/
theorem claim_C7_counterexample :
    scaleMap 1 10 5 = 1
    ∧ specInverseScale 1 10 (scaleMap 1 10 5) = 10
    ∧ ¬ |specInverseScale 1 10 (scaleMap 1 10 5) - 5| ≤ 1 := by
  have h1 : scaleMap 1 10 5 = 1 := by
    norm_num [scaleMap, jsRound_eq_floor]
  have h2 : specInverseScale 1 10 (scaleMap 1 10 5) = 10 := by
    rw [h1, specInverseScale]; norm_num
  refine ⟨h1, h2, ?_⟩
  rw [h2]
  rw [abs_le]
  push_neg
  intro _
  norm_num

/-- Claim C7 (amended): the round trip recovers the rendered coordinate
within half an inverse scale, `renderedDim / (2 * naturalDim)`; hence within
±1 unit whenever `renderedDim ≤ 2 * naturalDim` (the image is not displayed
upscaled by more than 2x) — not for arbitrary positive dimension pairs. -/
theorem claim_C7 (nat ren x : ℚ) (hn : 0 < nat) (hr : 0 < ren)
    (h2 : ren ≤ 2 * nat) :
    |specInverseScale nat ren (scaleMap nat ren x) - x| ≤ 1 := by
  have hne : nat ≠ 0 := ne_of_gt hn
  have hre : ren ≠ 0 := ne_of_gt hr
  set y : ℚ := x * (nat / ren) with hy
  have hfl : ((scaleMap nat ren x : Int) : ℚ) = ((⌊y + 1/2⌋ : Int) : ℚ) := by
    rw [scaleMap, jsRound_eq_floor]
  have hid : y * (ren / nat) = x := by
    rw [hy]; field_simp
  have key : specInverseScale nat ren (scaleMap nat ren x) - x
      = (((⌊y + 1/2⌋ : Int) : ℚ) - y) * (ren / nat) := by
    rw [specInverseScale, hfl, sub_mul, hid]
  rw [key, abs_mul, abs_of_pos (div_pos hr hn)]
  have hd : |((⌊y + 1/2⌋ : Int) : ℚ) - y| ≤ 1/2 := by
    rw [abs_le]
    constructor
    · linarith [Int.sub_one_lt_floor (y + 1/2)]
    · linarith [Int.floor_le (y + 1/2)]
  have hratio : ren / nat ≤ 2 := by
    rw [div_le_iff₀ hn]; linarith
  calc |((⌊y + 1/2⌋ : Int) : ℚ) - y| * (ren / nat)
      ≤ (1/2) * 2 := by
        apply mul_le_mul hd hratio (by positivity) (by norm_num)
    _ = 1 := by norm_num

/-- Witness for C7 at natural width 800, rendered width 400, click at 100. -/
theorem claim_C7_witness :
    (0 : ℚ) < 800 ∧ (0 : ℚ) < 400 ∧ (400 : ℚ) ≤ 2 * 800 ∧
    |specInverseScale 800 400 (scaleMap 800 400 100) - 100| ≤ 1 :=
  ⟨by norm_num, by norm_num, by norm_num,
    claim_C7 800 400 100 (by norm_num) (by norm_num) (by norm_num)⟩

/-- A loaded session with the finalized crop of the spec's scenario. -/
def stCrop : AppState :=
  { st0 with
    history := [FileB.named "A"]
    historyIndex := 0
    completedCrop := some { x := 50, y := 50, width := 100, height := 80 } }

/-- Claim C8: the crop raster measures `selection.width * density` by
`selection.height * density`, independent of the source image's natural
resolution; rect (50,50,100,80) at density 2 produces a 200x160 raster, and
(with the cursor on the last entry) the history gains exactly one entry. -/
theorem claim_C8 (c : Rect) (nw nh rw rh d : ℚ) (_hd : 1 ≤ d) :
    (rasterizeCrop c nw nh rw rh d).canvasW = c.width * d
    ∧ (rasterizeCrop c nw nh rw rh d).canvasH = c.height * d
    ∧ (∀ nw2 nh2 : ℚ,
        (rasterizeCrop c nw2 nh2 rw rh d).canvasW
            = (rasterizeCrop c nw nh rw rh d).canvasW
        ∧ (rasterizeCrop c nw2 nh2 rw rh d).canvasH
            = (rasterizeCrop c nw nh rw rh d).canvasH)
    ∧ (rasterizeCrop { x := 50, y := 50, width := 100, height := 80 }
        800 600 400 300 2).canvasW = 200
    ∧ (rasterizeCrop { x := 50, y := 50, width := 100, height := 80 }
        800 600 400 300 2).canvasH = 160
    ∧ (∀ s : AppState, s.completedCrop = some c →
        s.historyIndex = (s.history.length : Int) - 1 →
        (handleApplyCrop s true nw nh rw rh d true).history.length
            = s.history.length + 1) := by
  refine ⟨rfl, rfl, fun nw2 nh2 => ⟨rfl, rfl⟩,
    by norm_num [rasterizeCrop], by norm_num [rasterizeCrop], ?_⟩
  intro s hc hi
  unfold handleApplyCrop
  rw [hc]
  simp only [if_true]
  simp only [addImageToHistory, List.length_append, List.length_cons,
    List.length_nil, hi]
  have h1 : (s.history.length : Int) - 1 + 1 = (s.history.length : Int) := by
    ring
  rw [h1, jsSlice0_length_self]

/-- Witness for C8 at the scenario input and the session `stCrop`. -/
theorem claim_C8_witness :
    (1 : ℚ) ≤ 2 ∧
    stCrop.completedCrop = some { x := 50, y := 50, width := 100, height := 80 } ∧
    stCrop.historyIndex = (stCrop.history.length : Int) - 1 ∧
    (handleApplyCrop stCrop true 800 600 400 300 2 true).history.length
        = stCrop.history.length + 1 :=
  ⟨by norm_num, by decide, by decide,
    (claim_C8 { x := 50, y := 50, width := 100, height := 80 }
        800 600 400 300 2 (by norm_num)).2.2.2.2.2 stCrop (by decide) (by decide)⟩

theorem sendMessage_failure_state (s : AppState) (m : String) (p : Part)
    (r : Except String AnalysisResponse) (msg : String)
    (hc : (currentImage s).isNone = false)
    (hr : analysisOutcome r = Except.error msg) :
    handleSendMessage s m (Except.ok p) r
      = { s with isLoading := false
                 error := some ("Failed to get analysis. " ++ msg) } := by
  unfold handleSendMessage
  rw [if_neg (by simp [hc])]
  split_ifs with he
  · simp only [Except.map, hr, jsSlice0_append_neg_one]
  · simp only [Except.map, hr, jsSlice0_append_neg_one]

/-- Claim C9: when a generation or analysis collaborator call fails, a
human-readable error is recorded and the history sequence and cursor are
unchanged; for the analysis kind the just-added user turn is removed again,
so the conversation log is also exactly as before the submission. -/
theorem claim_C9 (s : AppState) (m msg br : String) (p : Part)
    (hc : (currentImage s).isNone = false) (hp : jsIsBlank s.prompt = false)
    (hh : s.editHotspot.isNone = false) (hm : s.maskDataUrl.isNone = false) :
    ((handleGenerate s (Except.error msg)).history = s.history
      ∧ (handleGenerate s (Except.error msg)).historyIndex = s.historyIndex
      ∧ (handleGenerate s (Except.error msg)).error
          = some ("Failed to generate the image. " ++ msg))
    ∧ ((handleGenerateFill s (Except.error msg)).history = s.history
      ∧ (handleGenerateFill s (Except.error msg)).historyIndex = s.historyIndex
      ∧ (handleGenerateFill s (Except.error msg)).error
          = some ("Failed to generate the filled image. " ++ msg))
    ∧ ((handleApplyStyle s (Except.error msg)).history = s.history
      ∧ (handleApplyStyle s (Except.error msg)).historyIndex = s.historyIndex
      ∧ (handleApplyStyle s (Except.error msg)).error
          = some ("Failed to apply the style. " ++ msg))
    ∧ ((handleApplyAdjustment s (Except.error msg)).history = s.history
      ∧ (handleApplyAdjustment s (Except.error msg)).historyIndex = s.historyIndex
      ∧ (handleApplyAdjustment s (Except.error msg)).error
          = some ("Failed to apply the adjustment. " ++ msg))
    ∧ ((handleSendMessage s m (Except.ok p) (Except.error msg)).history = s.history
      ∧ (handleSendMessage s m (Except.ok p) (Except.error msg)).historyIndex
          = s.historyIndex
      ∧ (handleSendMessage s m (Except.ok p) (Except.error msg)).chatHistory
          = s.chatHistory
      ∧ (handleSendMessage s m (Except.ok p) (Except.error msg)).error
          = some ("Failed to get analysis. " ++ msg))
    ∧ ((handleSendMessage s m (Except.ok p)
          (Except.ok { blockReason := some br, text := none })).history = s.history
      ∧ (handleSendMessage s m (Except.ok p)
          (Except.ok { blockReason := some br, text := none })).chatHistory
          = s.chatHistory
      ∧ (handleSendMessage s m (Except.ok p)
          (Except.ok { blockReason := some br, text := none })).error
          = some ("Failed to get analysis. "
              ++ ("Request was blocked. Reason: " ++ br ++ "."))) := by
  have hfail : analysisOutcome (Except.error msg) = Except.error msg := rfl
  have hblock : analysisOutcome
      (Except.ok ({ blockReason := some br, text := none } : AnalysisResponse))
      = Except.error ("Request was blocked. Reason: " ++ br ++ ".") := rfl
  refine ⟨?_, ?_, ?_, ?_, ?_, ?_⟩
  · unfold handleGenerate
    rw [if_neg (by simp [hc]), if_neg (by simp [hp]), if_neg (by simp [hh])]
    exact ⟨rfl, rfl, rfl⟩
  · unfold handleGenerateFill
    rw [if_neg (by simp [hc, hm])]
    exact ⟨rfl, rfl, rfl⟩
  · unfold handleApplyStyle
    rw [if_neg (by simp [hc])]
    exact ⟨rfl, rfl, rfl⟩
  · unfold handleApplyAdjustment
    rw [if_neg (by simp [hc])]
    exact ⟨rfl, rfl, rfl⟩
  · rw [sendMessage_failure_state s m p _ msg hc hfail]
    exact ⟨rfl, rfl, rfl, rfl⟩
  · rw [sendMessage_failure_state s m p _ _ hc hblock]
    exact ⟨rfl, rfl, rfl⟩

/-- Witness for C9 at the fully populated session `stSel`. -/
theorem claim_C9_witness :
    (currentImage stSel).isNone = false ∧ jsIsBlank stSel.prompt = false ∧
    stSel.editHotspot.isNone = false ∧ stSel.maskDataUrl.isNone = false ∧
    ((handleGenerate stSel (Except.error "network down")).history
        = stSel.history
      ∧ (handleSendMessage stSel "hi" (Except.ok (Part.text "img"))
          (Except.error "network down")).chatHistory = stSel.chatHistory) :=
  ⟨by decide, by decide, by decide, by decide,
    (claim_C9 stSel "hi" "network down" "safety" (Part.text "img")
        (by decide) (by decide) (by decide) (by decide)).1.1,
    (claim_C9 stSel "hi" "network down" "safety" (Part.text "img")
        (by decide) (by decide) (by decide) (by decide)).2.2.2.2.1.2.2.1⟩

/-- Claim C10 counterexample: `handleReset` on a non-empty history leaves
the crop rectangle and the completed crop exactly as they were, so it does
not clear all transient selection state. -/
theorem claim_C10_counterexample :
    0 < stSel.history.length
    ∧ (handleReset stSel).crop = some rect1
    ∧ (handleReset stSel).completedCrop = some rect1
    ∧ ¬ ((handleReset stSel).crop = none
          ∧ (handleReset stSel).completedCrop = none) := by
  decide

/-- Claim C10 (amended): `reset()` on a non-empty history moves the cursor
to 0, clears the hotspots and the paint mask (but leaves the crop rectangle
and the completed crop unchanged), erases the entire conversation log,
clears any recorded error, re-arms the automatic initial analysis, and
leaves the history sequence itself unchanged. -/
theorem claim_C10 (s : AppState) (h : 0 < s.history.length) :
    (handleReset s).historyIndex = 0
    ∧ (handleReset s).history = s.history
    ∧ (handleReset s).error = none
    ∧ (handleReset s).editHotspot = none
    ∧ (handleReset s).displayHotspot = none
    ∧ (handleReset s).maskDataUrl = none
    ∧ (handleReset s).chatHistory = []
    ∧ (handleReset s).hasInitialAnalysisRun = false
    ∧ (handleReset s).crop = s.crop
    ∧ (handleReset s).completedCrop = s.completedCrop := by
  rw [handleReset, if_pos h]
  exact ⟨rfl, rfl, rfl, rfl, rfl, rfl, rfl, rfl, rfl, rfl⟩

/-- Witness for C10 at the fully populated session `stSel`. -/
theorem claim_C10_witness :
    0 < stSel.history.length ∧
    ((handleReset stSel).historyIndex = 0
      ∧ (handleReset stSel).history = stSel.history) :=
  ⟨by decide,
    (claim_C10 stSel (by decide)).1,
    (claim_C10 stSel (by decide)).2.1⟩

end InfiniteCanvas
